import Mathlib

/-
Verification development for the btoon-go binding layer.

The definitions below are a shallow embedding of the Go source file
src/btoon.go of the BTOON-project/btoon-go repository.  Go's dynamic
`interface` values are modelled by the inductive `GoValue`; the CGO
`unsafe.Pointer` values passed between the Go helpers are modelled by
`CPtr` (a pointer is either nil or carries an opaque identifier); Go's
multiple-return convention `(result, error)` is modelled by pairs of
`Option`s, where `none` stands for Go's nil.  Errors created with
`errors.New` are modelled by the enumeration `GoError`, one constructor
per message occurring in the source.  Methods with pointer receivers
return the (unchanged, as in the source bodies) receiver explicitly, so
that call sequences such as Close-then-Encode can be stated.

Every definition is translated directly from the bodies in src/btoon.go.
In that file the helper bodies are stubs: `encodeValue`, `bytesToData`,
`dataToBytes`, `compressData` and `decompressData` all return nil, and
`decodeData` and the streaming methods return nil results with nil
errors.  The embedding reproduces those bodies exactly; the theorems
record what the package, as written, actually does.
-/

/-- The dynamic value universe of the binding: the Go values the tests
feed to `Encode` (nil, bool, int, float, string, bytes, array, map).
A float is carried as its IEEE-754 binary64 bit pattern. -/
inductive GoValue where
  | null
  | boolV (b : Bool)
  | intV (i : Int)
  | floatV (bits : Nat)
  | strV (s : String)
  | bytesV (bs : List Nat)
  | arrV (elems : List GoValue)
  | mapV (entries : List (String × GoValue))

/-- Model of `unsafe.Pointer`: nil or an opaque non-nil handle. -/
inductive CPtr where
  | null
  | valid (id : Nat)
  deriving DecidableEq

/-- The compression algorithm enumeration of src/btoon.go
(`CompressionNone` is the zero value, as with Go's iota). -/
inductive CompressionAlgorithm where
  | CompressionNone
  | CompressionZlib
  | CompressionLZ4
  | CompressionZSTD
  | CompressionBrotli
  | CompressionSnappy
  deriving DecidableEq

/-- `EncodeOptions` of src/btoon.go. -/
structure EncodeOptions where
  Compress : Bool
  Algorithm : CompressionAlgorithm
  Level : Int
  AutoTabular : Bool
  deriving DecidableEq

/-- `DecodeOptions` of src/btoon.go. -/
structure DecodeOptions where
  Decompress : Bool
  deriving DecidableEq

/-- One constructor per `errors.New` message in src/btoon.go. -/
inductive GoError where
  | failedToEncodeValue
  | compressionFailed
  | emptyData
  | failedToCreateDataStructure
  | decompressionFailed
  deriving DecidableEq

/-- `encodeValue` of src/btoon.go: the body is a stub that returns nil
for every input. -/
def encodeValue (v : GoValue) : CPtr := CPtr.null

/-- `decodeData` of src/btoon.go: the body is a stub returning a nil
value together with a nil error. -/
def decodeData (data : CPtr) : Option GoValue × Option GoError :=
  (none, none)

/-- `dataToBytes` of src/btoon.go: the stub returns a nil byte slice. -/
def dataToBytes (data : CPtr) : Option (List Nat) := none

/-- `bytesToData` of src/btoon.go: the stub returns a nil pointer. -/
def bytesToData (data : List Nat) : CPtr := CPtr.null

/-- `compressData` of src/btoon.go: the stub returns a nil pointer. -/
def compressData (data : CPtr) (algo : CompressionAlgorithm) (level : Int) : CPtr :=
  CPtr.null

/-- `decompressData` of src/btoon.go: the stub returns a nil pointer. -/
def decompressData (data : CPtr) : CPtr := CPtr.null

/-- `freeEncodedData` of src/btoon.go: frees the C buffer when non-nil;
memory release has no observable effect in the model. -/
def freeEncodedData (data : CPtr) : Unit := ()

/-- `Encode` of src/btoon.go: defaults, variadic option override, the
nil check on `encodeValue`, the optional compression branch, and the
final `dataToBytes` conversion, translated clause by clause. -/
def Encode (v : GoValue) (opts : List EncodeOptions) :
    Option (List Nat) × Option GoError :=
  let opt : EncodeOptions :=
    { Compress := false, Algorithm := CompressionAlgorithm.CompressionNone,
      Level := 6, AutoTabular := true }
  let opt : EncodeOptions :=
    match opts with
    | [] => opt
    | o :: _ => o
  let data := encodeValue v
  if data = CPtr.null then
    (none, some GoError.failedToEncodeValue)
  else if opt.Compress then
    let cdata := compressData data opt.Algorithm opt.Level
    if cdata = CPtr.null then
      (none, some GoError.compressionFailed)
    else
      (dataToBytes cdata, none)
  else
    (dataToBytes data, none)

/-- `Decode` of src/btoon.go: the empty-input guard, defaults, variadic
option override, `bytesToData`, the optional decompression branch, and
the final `decodeData` call, translated clause by clause. -/
def Decode (data : List Nat) (opts : List DecodeOptions) :
    Option GoValue × Option GoError :=
  if data.length = 0 then
    (none, some GoError.emptyData)
  else
    let opt : DecodeOptions := { Decompress := false }
    let opt : DecodeOptions :=
      match opts with
      | [] => opt
      | o :: _ => o
    let cdata := bytesToData data
    if cdata = CPtr.null then
      (none, some GoError.failedToCreateDataStructure)
    else if opt.Decompress then
      let cdata2 := decompressData cdata
      if cdata2 = CPtr.null then
        (none, some GoError.decompressionFailed)
      else
        decodeData cdata2
    else
      decodeData cdata

/-- `StreamEncoder` of src/btoon.go. -/
structure StreamEncoder where
  encoder : CPtr
  deriving DecidableEq

/-- `NewStreamEncoder` of src/btoon.go: returns the zero-value struct. -/
def NewStreamEncoder : StreamEncoder := { encoder := CPtr.null }

/-- `StreamEncoder.Encode` of src/btoon.go: the body is a stub that
mutates nothing and returns a nil error. -/
def StreamEncoder.Encode (s : StreamEncoder) (v : GoValue) :
    StreamEncoder × Option GoError :=
  (s, none)

/-- `StreamEncoder.Flush` of src/btoon.go: the stub returns a nil byte
slice and a nil error. -/
def StreamEncoder.Flush (s : StreamEncoder) :
    StreamEncoder × (Option (List Nat) × Option GoError) :=
  (s, (none, none))

/-- `StreamEncoder.Close` of src/btoon.go: the stub mutates nothing and
returns a nil error. -/
def StreamEncoder.Close (s : StreamEncoder) : StreamEncoder × Option GoError :=
  (s, none)

/-- `StreamDecoder` of src/btoon.go. -/
structure StreamDecoder where
  decoder : CPtr
  deriving DecidableEq

/-- `NewStreamDecoder` of src/btoon.go: ignores its input bytes and
returns the zero-value struct. -/
def NewStreamDecoder (data : List Nat) : StreamDecoder := { decoder := CPtr.null }

/-- `StreamDecoder.Decode` of src/btoon.go: the stub returns a nil value
together with a nil error, leaving the receiver unchanged. -/
def StreamDecoder.Decode (s : StreamDecoder) :
    StreamDecoder × (Option GoValue × Option GoError) :=
  (s, (none, none))

/-- `StreamDecoder.Close` of src/btoon.go: the stub mutates nothing and
returns a nil error. -/
def StreamDecoder.Close (s : StreamDecoder) : StreamDecoder × Option GoError :=
  (s, none)

/-- The two-record array of the spec's concrete tabular scenario. -/
def aliceBobArray : GoValue :=
  GoValue.arrV
    [GoValue.mapV [("id", GoValue.intV 1), ("name", GoValue.strV "Alice")],
     GoValue.mapV [("id", GoValue.intV 2), ("name", GoValue.strV "Bob")]]

/-- Claim C1: the spec states decode-of-encode round-trips every
constructible Value and that Encode succeeds within the depth limit.
In src/btoon.go `encodeValue` returns nil for every input, so `Encode`
returns a nil byte slice and the error "failed to encode value" for
every value and every options list: Encode never succeeds, refuting the
round-trip property and the package's own test TestBasicEncoding. -/
theorem C1_encode_always_fails :
    ∀ (v : GoValue) (opts : List EncodeOptions),
      Encode v opts = (none, some GoError.failedToEncodeValue) := by
  intro v opts
  cases opts <;> rfl

/-- Claim C2: the spec states the compressed round-trip
Decode(Encode(v, compress on), decompress on) = v for every algorithm
and level.  In src/btoon.go `Encode` fails with "failed to encode
value" before the compression branch is ever reached, for every
algorithm and level, so no compressed round-trip exists; the package's
own test TestCompression requires it to succeed. -/
theorem C2_compressed_encode_fails :
    ∀ (a : CompressionAlgorithm) (l : Int) (v : GoValue),
      Encode v [{ Compress := true, Algorithm := a, Level := l, AutoTabular := true }] =
        (none, some GoError.failedToEncodeValue) := by
  intro a l v
  rfl

/-- Claim C3: the spec states streaming encode-then-decode yields the
values in order followed by a clean Exhausted signal.  In src/btoon.go
the stream stubs do nothing: after encoding a value, Flush returns a
nil byte slice (so no frames exist), and a StreamDecoder returns a nil
value with a nil error on every Decode call — it never yields the
encoded values and has no distinguishable end-of-stream signal,
contradicting the package's own test TestStreaming. -/
theorem C3_streaming_yields_nothing :
    (NewStreamEncoder.Encode (GoValue.intV 1)).2 = none ∧
    ((NewStreamEncoder.Encode (GoValue.intV 1)).1.Flush).2 = (none, none) ∧
    ((NewStreamDecoder []).Decode).2 = (none, none) := by
  exact ⟨rfl, rfl, rfl⟩

/-- Claim C4: the spec states that Encode after Close on a stream
encoder fails with StreamClosed.  In src/btoon.go `Close` is a stub
that records nothing and `Encode` always returns a nil error, so an
Encode call after Close succeeds instead of failing. -/
theorem C4_encode_after_close_succeeds :
    (((NewStreamEncoder.Close).1).Encode (GoValue.intV 42)).2 = none := by
  rfl

/-- Claim C5: the spec states Close is idempotent and that after the
first Close every further operation fails cleanly with an error.  In
src/btoon.go Close is trivially idempotent (always returns a nil
error), but operations after Close also succeed: StreamEncoder.Encode
returns a nil error and StreamDecoder.Decode returns a nil value with a
nil error, so no post-Close operation fails as claimed. -/
theorem C5_close_idempotent_but_ops_still_succeed :
    (NewStreamEncoder.Close).2 = none ∧
    (((NewStreamEncoder.Close).1).Close).2 = none ∧
    ((((NewStreamEncoder.Close).1).Close).1.Encode (GoValue.intV 7)).2 = none ∧
    ((NewStreamDecoder [1]).Close).2 = none ∧
    ((((NewStreamDecoder [1]).Close).1).Decode).2 = (none, none) := by
  exact ⟨rfl, rfl, rfl, rfl, rfl⟩

/-- Claim C6: the spec states every failure is reported as a
distinguishable non-nil error, never as a silent nil/zero result with a
nil error.  In src/btoon.go `decodeData` returns (nil, nil) even for a
non-nil data pointer, and `StreamDecoder.Decode` returns (nil, nil) on
any stream, including malformed bytes — exactly the silent nil result
with nil error that the claim forbids. -/
theorem C6_nil_result_nil_error :
    decodeData (CPtr.valid 0) = (none, none) ∧
    ((NewStreamDecoder [255]).Decode).2 = (none, none) := by
  exact ⟨rfl, rfl⟩

/-- Claim C7: the spec states that for a non-empty array of maps the
tabular-on and tabular-off encodings decode to equal values.  In
src/btoon.go `Encode` fails with "failed to encode value" under both
settings of AutoTabular, so neither side ever decodes to a value; the
package's own tests encode exactly such arrays of maps and require
success. -/
theorem C7_tabular_encode_fails_both_ways :
    Encode aliceBobArray
        [{ Compress := false, Algorithm := CompressionAlgorithm.CompressionNone,
           Level := 6, AutoTabular := true }] =
      (none, some GoError.failedToEncodeValue) ∧
    Encode aliceBobArray
        [{ Compress := false, Algorithm := CompressionAlgorithm.CompressionNone,
           Level := 6, AutoTabular := false }] =
      (none, some GoError.failedToEncodeValue) := by
  exact ⟨rfl, rfl⟩

/-- Claim C8: Encode and Decode are deterministic pure functions of
their inputs — two calls with equal input and equal options return
equal results.  The embedded functions take no state besides their
arguments, faithfully to src/btoon.go, which has no package-level
mutable state, so equal inputs give equal outputs. -/
theorem C8_encode_decode_deterministic :
    (∀ (v₁ v₂ : GoValue) (o₁ o₂ : List EncodeOptions),
      v₁ = v₂ → o₁ = o₂ → Encode v₁ o₁ = Encode v₂ o₂) ∧
    (∀ (d₁ d₂ : List Nat) (p₁ p₂ : List DecodeOptions),
      d₁ = d₂ → p₁ = p₂ → Decode d₁ p₁ = Decode d₂ p₂) := by
  constructor
  · intro v₁ v₂ o₁ o₂ hv ho
    rw [hv, ho]
  · intro d₁ d₂ p₁ p₂ hd hp
    rw [hd, hp]

/-- Witness for C8: two Encode calls on the value 5 with no options
agree, and two Decode calls on the byte 7 with no options agree. -/
theorem C8_determinism_witness :
    Encode (GoValue.intV 5) [] = Encode (GoValue.intV 5) [] ∧
    Decode [7] [] = Decode [7] [] :=
  ⟨C8_encode_decode_deterministic.1 (GoValue.intV 5) (GoValue.intV 5) [] [] rfl rfl,
   C8_encode_decode_deterministic.2 [7] [7] [] [] rfl rfl⟩

/-- Claim C9: Decode on an empty byte slice returns a nil value and a
non-nil error for every options value.  The guard `len(data) == 0` is
the first statement of `Decode` in src/btoon.go, before option parsing
and before `bytesToData` or any decompression, so the result is the
same "empty data" error whatever the options, decompression included. -/
theorem C9_decode_empty_errors :
    ∀ (opts : List DecodeOptions),
      Decode [] opts = (none, some GoError.emptyData) := by
  intro opts
  rfl

/-- Claim C10: with no options, Encode behaves exactly as with the
single option EncodeOptions with Compress false, Algorithm the zero
value CompressionNone, Level 6 and AutoTabular true; and with one or
more options passed, only the first is used, wholesale replacing every
default. -/
theorem C10_default_and_first_option :
    (∀ (v : GoValue),
      Encode v [] =
        Encode v [{ Compress := false,
                    Algorithm := CompressionAlgorithm.CompressionNone,
                    Level := 6, AutoTabular := true }]) ∧
    (∀ (v : GoValue) (o : EncodeOptions) (rest : List EncodeOptions),
      Encode v (o :: rest) = Encode v [o]) := by
  constructor
  · intro v
    rfl
  · intro v o rest
    rfl
